import Mathlib

/-!
Verification of the scoring and report-aggregation engine of the
FinTech AI Ethics & Governance toolkit (`app.py`).

The embedding below translates the scoring loops, threshold classifiers,
session-state updates and report payload construction of the source into
executable Lean definitions over `ℚ`, and proves (or refutes) the frozen
claims about them.
-/

/-- The four radio options of the risk-identification tool
(`app.py` line 940): "Yes - Fully Implemented", "Partial - In Progress",
"No - Not Addressed", "N/A".  The first option is the widget default. -/
inductive RiskResponse where
  | fullyImplemented
  | inProgress
  | notAddressed
  | notApplicable
deriving DecidableEq, Repr

/-- One iteration of the risk-tool category scoring loop
(`app.py` lines 946-953): the accumulator is
`(category_score, max_score)`; `max_score += weight` always happens, a
fully implemented answer adds `weight` to the score, an in-progress answer
adds `weight * 0.5`, and an N/A answer subtracts the weight back out of
`max_score`. -/
def riskStep (acc : ℚ × ℚ) (q : ℚ × RiskResponse) : ℚ × ℚ :=
  let ms := acc.2 + q.1
  match q.2 with
  | .fullyImplemented => (acc.1 + q.1, ms)
  | .inProgress => (acc.1 + q.1 * (1 / 2), ms)
  | .notAddressed => (acc.1, ms)
  | .notApplicable => (acc.1, ms - q.1)

/-- Risk-tool category score (`app.py` lines 934-961): fold the scoring
loop over the weighted questions, then
`(category_score / max_score) * 100` when `max_score > 0`, else `100`. -/
def riskCategoryScore (qs : List (ℚ × RiskResponse)) : ℚ :=
  let acc := qs.foldl riskStep (0, 0)
  if acc.2 > 0 then acc.1 / acc.2 * 100 else 100

/-- Risk-tool overall score (`app.py` lines 969-972) over
`(score, weight)` pairs: `total_weighted_score / total_weight` when
`total_weight > 0`, else `0`. -/
def overall_score_risk (rs : List (ℚ × ℚ)) : ℚ :=
  let total_weighted_score := (rs.map fun s => s.1 * s.2).sum
  let total_weight := (rs.map fun s => s.2).sum
  if total_weight > 0 then total_weighted_score / total_weight else 0

/-- Risk-level classifier for the overall risk score
(`app.py` lines 975-986). -/
def risk_level (s : ℚ) : String :=
  if s ≥ 80 then "Low" else if s ≥ 60 then "Medium" else "High"

/-- Per-category risk bucket in the category breakdown table
(`app.py` lines 1025-1026). -/
def categoryRiskLevel (s : ℚ) : String :=
  if s ≥ 80 then "Low" else if s ≥ 60 then "Medium" else "High"

/-- The five selectbox options of the ethical-assessment checklist
(`app.py` line 1803): "Not Assessed", "Compliant", "Partial",
"Non-Compliant", "N/A".  The first option is the widget default. -/
inductive CheckStatus where
  | notAssessed
  | compliant
  | partiallyCompliant
  | nonCompliant
  | notApplicable
deriving DecidableEq, Repr

/-- Checklist item priority labels (`app.py` checklist data). -/
inductive Priority where
  | critical
  | high
  | medium
  | low
deriving DecidableEq, Repr

/-- Priority-label weight table (`app.py` line 1783):
Critical 3, High 2, Medium 1, Low 0.5.  (The source's dictionary lookup
defaults to 1 for unlisted labels; every item in the static data uses one
of these four labels.) -/
def priority_weight : Priority → ℚ
  | .critical => 3
  | .high => 2
  | .medium => 1
  | .low => 1 / 2

/-- One iteration of the checklist section scoring loop
(`app.py` lines 1782-1814): the accumulator is
`(compliant_weighted, total_weighted)`; `total_weighted += priority_weight`
always happens, Compliant adds the weight to the compliant side, Partial
adds half of it, N/A subtracts the weight back out of `total_weighted`,
and Not Assessed / Non-Compliant add nothing. -/
def checkStep (acc : ℚ × ℚ) (q : ℚ × CheckStatus) : ℚ × ℚ :=
  let tw := acc.2 + q.1
  match q.2 with
  | .compliant => (acc.1 + q.1, tw)
  | .partiallyCompliant => (acc.1 + q.1 * (1 / 2), tw)
  | .notApplicable => (acc.1, tw - q.1)
  | _ => (acc.1, tw)

/-- Checklist section score (`app.py` lines 1777-1820):
`(compliant_weighted / total_weighted) * 100` when `total_weighted > 0`,
else `100`. -/
def section_score (qs : List (ℚ × CheckStatus)) : ℚ :=
  let acc := qs.foldl checkStep (0, 0)
  if acc.2 > 0 then acc.1 / acc.2 * 100 else 100

/-- Checklist overall score (`app.py` line 1829): the unweighted mean of
the section scores when there are any, else `0`. -/
def overall_score_checklist (ss : List ℚ) : ℚ :=
  if ss.isEmpty then 0 else ss.sum / (ss.length : ℚ)

/-- Checklist overall readiness classifier (`app.py` lines 1831-1839). -/
def overall_status (s : ℚ) : String :=
  if s ≥ 80 then "Ready for Production"
  else if s ≥ 60 then "Needs Improvement"
  else "Not Ready"

/-- Checklist per-section status label (`app.py` line 1878). -/
def section_status (s : ℚ) : String :=
  if s ≥ 80 then "✅ Pass" else if s ≥ 60 then "⚠️ Review" else "❌ Fail"

/-- A checklist item as stored in `assessment_results`
(`app.py` line 1807): its priority label and its assessed status. -/
structure ChecklistItem where
  priority : Priority
  status : CheckStatus
deriving DecidableEq, Repr

/-- Count of critical issues (`app.py` lines 1861-1865): the number of
items across all sections whose priority is Critical and whose status is
Non-Compliant. -/
def critical_issues (results : List (List ChecklistItem)) : ℕ :=
  (results.map fun sec =>
    sec.countP fun it =>
      it.priority == Priority.critical && it.status == CheckStatus.nonCompliant).sum

/-- Section score of a list of checklist items, the weight of each item
being determined by its priority label as in the source loop. -/
def sectionScoreOfItems (sec : List ChecklistItem) : ℚ :=
  section_score (sec.map fun it => (priority_weight it.priority, it.status))

/-- Checklist overall score computed from full item-level results. -/
def overallOfResults (results : List (List ChecklistItem)) : ℚ :=
  overall_score_checklist (results.map sectionScoreOfItems)

/-- A risk-tool answer that may be absent from the answer mapping.  The
source widget (`st.radio`, `app.py` lines 938-943) resolves an absent
answer to the first option, "Yes - Fully Implemented". -/
def resolveRiskAnswer (o : Option RiskResponse) : RiskResponse :=
  o.getD .fullyImplemented

/-- A checklist status that may be absent from the answer mapping.  The
source widget (`st.selectbox`, `app.py` lines 1801-1806) resolves an
absent status to the first option, "Not Assessed". -/
def resolveCheckStatus (o : Option CheckStatus) : CheckStatus :=
  o.getD .notAssessed

/-- Risk-tool category score over a partial answer mapping: absent
answers are resolved by the widget default before scoring. -/
def riskCategoryScoreOpt (qs : List (ℚ × Option RiskResponse)) : ℚ :=
  riskCategoryScore (qs.map fun q => (q.1, resolveRiskAnswer q.2))

/-- Checklist section score over a partial answer mapping: absent
statuses are resolved by the widget default before scoring. -/
def section_score_opt (qs : List (ℚ × Option CheckStatus)) : ℚ :=
  section_score (qs.map fun q => (q.1, resolveCheckStatus q.2))

/-! ### Sum decomposition of the scoring folds -/

/-- Credit earned by one risk-tool answer on a question of weight `w`. -/
def riskCredit (w : ℚ) : RiskResponse → ℚ
  | .fullyImplemented => w
  | .inProgress => w * (1 / 2)
  | .notAddressed => 0
  | .notApplicable => 0

/-- Weight contributed to the risk-tool denominator by one answer: the
question's weight, except that N/A contributes nothing. -/
def riskWeightOf (w : ℚ) : RiskResponse → ℚ
  | .notApplicable => 0
  | _ => w

/-- Credit earned by one checklist status on an item of weight `w`. -/
def checkCredit (w : ℚ) : CheckStatus → ℚ
  | .compliant => w
  | .partiallyCompliant => w * (1 / 2)
  | _ => 0

/-- Weight contributed to the checklist denominator by one status: the
item's weight, except that N/A contributes nothing. -/
def checkWeightOf (w : ℚ) : CheckStatus → ℚ
  | .notApplicable => 0
  | _ => w

lemma riskStep_eq (acc : ℚ × ℚ) (q : ℚ × RiskResponse) :
    riskStep acc q = (acc.1 + riskCredit q.1 q.2, acc.2 + riskWeightOf q.1 q.2) := by
  rcases q with ⟨w, r⟩
  cases r <;> simp [riskStep, riskCredit, riskWeightOf]

lemma checkStep_eq (acc : ℚ × ℚ) (q : ℚ × CheckStatus) :
    checkStep acc q = (acc.1 + checkCredit q.1 q.2, acc.2 + checkWeightOf q.1 q.2) := by
  rcases q with ⟨w, s⟩
  cases s <;> simp [checkStep, checkCredit, checkWeightOf]

/-- Total credit earned over a risk-tool category. -/
def earnedRisk (qs : List (ℚ × RiskResponse)) : ℚ :=
  (qs.map fun q => riskCredit q.1 q.2).sum

/-- Total applicable weight of a risk-tool category. -/
def totalRisk (qs : List (ℚ × RiskResponse)) : ℚ :=
  (qs.map fun q => riskWeightOf q.1 q.2).sum

/-- Total credit earned over a checklist section. -/
def earnedCheck (qs : List (ℚ × CheckStatus)) : ℚ :=
  (qs.map fun q => checkCredit q.1 q.2).sum

/-- Total applicable weight of a checklist section. -/
def totalCheck (qs : List (ℚ × CheckStatus)) : ℚ :=
  (qs.map fun q => checkWeightOf q.1 q.2).sum

lemma riskFold_eq (qs : List (ℚ × RiskResponse)) (a b : ℚ) :
    qs.foldl riskStep (a, b) = (a + earnedRisk qs, b + totalRisk qs) := by
  induction qs generalizing a b with
  | nil => simp [earnedRisk, totalRisk]
  | cons q qs ih =>
      simp only [List.foldl_cons, riskStep_eq, ih, earnedRisk, totalRisk, List.map_cons,
        List.sum_cons, Prod.mk.injEq]
      constructor <;> ring

lemma checkFold_eq (qs : List (ℚ × CheckStatus)) (a b : ℚ) :
    qs.foldl checkStep (a, b) = (a + earnedCheck qs, b + totalCheck qs) := by
  induction qs generalizing a b with
  | nil => simp [earnedCheck, totalCheck]
  | cons q qs ih =>
      simp only [List.foldl_cons, checkStep_eq, ih, earnedCheck, totalCheck, List.map_cons,
        List.sum_cons, Prod.mk.injEq]
      constructor <;> ring

lemma riskCategoryScore_eq (qs : List (ℚ × RiskResponse)) :
    riskCategoryScore qs =
      if totalRisk qs > 0 then earnedRisk qs / totalRisk qs * 100 else 100 := by
  simp only [riskCategoryScore, riskFold_eq, zero_add]

lemma section_score_eq (qs : List (ℚ × CheckStatus)) :
    section_score qs =
      if totalCheck qs > 0 then earnedCheck qs / totalCheck qs * 100 else 100 := by
  simp only [section_score, checkFold_eq, zero_add]

example : riskCategoryScore
    [(3, .fullyImplemented), (3, .inProgress), (2, .notAddressed)] = 225 / 4 := by
  rw [riskCategoryScore_eq]
  norm_num [totalRisk, earnedRisk, riskCredit, riskWeightOf]

example : riskCategoryScore
    [(3, .fullyImplemented), (3, .inProgress), (2, .notApplicable)] = 75 := by
  rw [riskCategoryScore_eq]
  norm_num [totalRisk, earnedRisk, riskCredit, riskWeightOf]

/-! ### Decomposition lemmas for earned credit and applicable weight -/

lemma earnedRisk_append (l₁ l₂ : List (ℚ × RiskResponse)) :
    earnedRisk (l₁ ++ l₂) = earnedRisk l₁ + earnedRisk l₂ := by
  simp [earnedRisk]

lemma totalRisk_append (l₁ l₂ : List (ℚ × RiskResponse)) :
    totalRisk (l₁ ++ l₂) = totalRisk l₁ + totalRisk l₂ := by
  simp [totalRisk]

lemma earnedRisk_cons (q : ℚ × RiskResponse) (l : List (ℚ × RiskResponse)) :
    earnedRisk (q :: l) = riskCredit q.1 q.2 + earnedRisk l := by
  simp [earnedRisk]

lemma totalRisk_cons (q : ℚ × RiskResponse) (l : List (ℚ × RiskResponse)) :
    totalRisk (q :: l) = riskWeightOf q.1 q.2 + totalRisk l := by
  simp [totalRisk]

lemma earnedCheck_append (l₁ l₂ : List (ℚ × CheckStatus)) :
    earnedCheck (l₁ ++ l₂) = earnedCheck l₁ + earnedCheck l₂ := by
  simp [earnedCheck]

lemma totalCheck_append (l₁ l₂ : List (ℚ × CheckStatus)) :
    totalCheck (l₁ ++ l₂) = totalCheck l₁ + totalCheck l₂ := by
  simp [totalCheck]

lemma earnedCheck_cons (q : ℚ × CheckStatus) (l : List (ℚ × CheckStatus)) :
    earnedCheck (q :: l) = checkCredit q.1 q.2 + earnedCheck l := by
  simp [earnedCheck]

lemma totalCheck_cons (q : ℚ × CheckStatus) (l : List (ℚ × CheckStatus)) :
    totalCheck (q :: l) = checkWeightOf q.1 q.2 + totalCheck l := by
  simp [totalCheck]

/-! ### C2: the two worked example scenarios -/

/-- C2: for a category with questions weighted 3, 3 and 2 answered
Fully-Implemented, Partial and Not-Addressed, the loop earns 4.5 out of a
total weight of 8, yielding score 56.25, bucketed "High"; with the third
answer N/A instead, the total weight is 6 and the score 75, bucketed
"Medium". -/
theorem claim_C2_example_scenarios :
    earnedRisk [(3, .fullyImplemented), (3, .inProgress), (2, .notAddressed)] = 9 / 2 ∧
    totalRisk [(3, .fullyImplemented), (3, .inProgress), (2, .notAddressed)] = 8 ∧
    riskCategoryScore [(3, .fullyImplemented), (3, .inProgress), (2, .notAddressed)]
      = 225 / 4 ∧
    categoryRiskLevel (225 / 4) = "High" ∧
    earnedRisk [(3, .fullyImplemented), (3, .inProgress), (2, .notApplicable)] = 9 / 2 ∧
    totalRisk [(3, .fullyImplemented), (3, .inProgress), (2, .notApplicable)] = 6 ∧
    riskCategoryScore [(3, .fullyImplemented), (3, .inProgress), (2, .notApplicable)] = 75 ∧
    categoryRiskLevel 75 = "Medium" := by
  refine ⟨?_, ?_, ?_, ?_, ?_, ?_, ?_, ?_⟩
  · norm_num [earnedRisk, riskCredit]
  · norm_num [totalRisk, riskWeightOf]
  · rw [riskCategoryScore_eq]
    norm_num [totalRisk, earnedRisk, riskCredit, riskWeightOf]
  · norm_num [categoryRiskLevel]
  · norm_num [earnedRisk, riskCredit]
  · norm_num [totalRisk, riskWeightOf]
  · rw [riskCategoryScore_eq]
    norm_num [totalRisk, earnedRisk, riskCredit, riskWeightOf]
  · norm_num [categoryRiskLevel]

/-! ### C3: N/A answers are fully excluded -/

/-- C3: in both scoring loops an N/A answer contributes neither credit nor
weight — inserting an N/A question anywhere leaves the category/section
score unchanged — and a category or section whose questions are all N/A
scores exactly 100 (the vacuous-pass branch), with no error involved. -/
theorem claim_C3_na_exclusion :
    (∀ (w : ℚ) (l₁ l₂ : List (ℚ × RiskResponse)),
        riskCategoryScore (l₁ ++ (w, .notApplicable) :: l₂)
          = riskCategoryScore (l₁ ++ l₂)) ∧
    (∀ (w : ℚ) (l₁ l₂ : List (ℚ × CheckStatus)),
        section_score (l₁ ++ (w, .notApplicable) :: l₂) = section_score (l₁ ++ l₂)) ∧
    (∀ ws : List ℚ,
        riskCategoryScore (ws.map fun w => (w, .notApplicable)) = 100) ∧
    (∀ ws : List ℚ,
        section_score (ws.map fun w => (w, .notApplicable)) = 100) := by
  refine ⟨?_, ?_, ?_, ?_⟩
  · intro w l₁ l₂
    rw [riskCategoryScore_eq, riskCategoryScore_eq, earnedRisk_append, totalRisk_append,
      earnedRisk_cons, totalRisk_cons, earnedRisk_append, totalRisk_append]
    norm_num [riskCredit, riskWeightOf]
  · intro w l₁ l₂
    rw [section_score_eq, section_score_eq, earnedCheck_append, totalCheck_append,
      earnedCheck_cons, totalCheck_cons, earnedCheck_append, totalCheck_append]
    norm_num [checkCredit, checkWeightOf]
  · intro ws
    have ht : totalRisk (ws.map fun w => (w, .notApplicable)) = 0 := by
      induction ws with
      | nil => simp [totalRisk]
      | cons w ws ih =>
          rw [List.map_cons, totalRisk_cons]
          simpa [riskWeightOf] using ih
    rw [riskCategoryScore_eq, ht]
    norm_num
  · intro ws
    have ht : totalCheck (ws.map fun w => (w, .notApplicable)) = 0 := by
      induction ws with
      | nil => simp [totalCheck]
      | cons w ws ih =>
          rw [List.map_cons, totalCheck_cons]
          simpa [checkWeightOf] using ih
    rw [section_score_eq, ht]
    norm_num

/-! ### C4: the 80/60 classification thresholds -/

/-- Canonical 3-tier bucket index with closed lower bounds at 80 and 60,
written from the spec's description: tier 0 for `score >= 80`, tier 1 for
`60 <= score < 80`, tier 2 for `score < 60`.  The four classifiers of the
source are compared against it. -/
def classificationTier (s : ℚ) : ℕ :=
  if s ≥ 80 then 0 else if s ≥ 60 then 1 else 2

/-- Tier labels of the overall risk classifier and of the per-category
risk bucket. -/
def riskTierLabel (t : ℕ) : String :=
  if t = 0 then "Low" else if t = 1 then "Medium" else "High"

/-- Tier labels of the checklist overall readiness classifier. -/
def readinessTierLabel (t : ℕ) : String :=
  if t = 0 then "Ready for Production"
  else if t = 1 then "Needs Improvement"
  else "Not Ready"

/-- Tier labels of the checklist per-section status. -/
def sectionTierLabel (t : ℕ) : String :=
  if t = 0 then "✅ Pass" else if t = 1 then "⚠️ Review" else "❌ Fail"

/-- C4: all four classifiers of the source (overall risk level, category
risk bucket, checklist overall status, checklist section status) are the
same 3-tier bucketing with closed lower bounds at 80 and 60, differing
only in labels; 80 and 79.999 land in different tiers, as do 60 and
59.999. -/
theorem claim_C4_classification_thresholds :
    (∀ s : ℚ, risk_level s = riskTierLabel (classificationTier s)) ∧
    (∀ s : ℚ, categoryRiskLevel s = riskTierLabel (classificationTier s)) ∧
    (∀ s : ℚ, overall_status s = readinessTierLabel (classificationTier s)) ∧
    (∀ s : ℚ, section_status s = sectionTierLabel (classificationTier s)) ∧
    classificationTier 80 = 0 ∧ classificationTier (79999 / 1000) = 1 ∧
    classificationTier 80 ≠ classificationTier (79999 / 1000) ∧
    classificationTier 60 = 1 ∧ classificationTier (59999 / 1000) = 2 ∧
    classificationTier 60 ≠ classificationTier (59999 / 1000) := by
  have h80 : classificationTier 80 = 0 := by norm_num [classificationTier]
  have h799 : classificationTier (79999 / 1000) = 1 := by norm_num [classificationTier]
  have h60 : classificationTier 60 = 1 := by norm_num [classificationTier]
  have h599 : classificationTier (59999 / 1000) = 2 := by norm_num [classificationTier]
  refine ⟨?_, ?_, ?_, ?_, h80, h799, ?_, h60, h599, ?_⟩
  · intro s
    by_cases hA : s ≥ 80 <;> by_cases hB : s ≥ 60 <;>
      simp [risk_level, riskTierLabel, classificationTier, hA, hB]
  · intro s
    by_cases hA : s ≥ 80 <;> by_cases hB : s ≥ 60 <;>
      simp [categoryRiskLevel, riskTierLabel, classificationTier, hA, hB]
  · intro s
    by_cases hA : s ≥ 80 <;> by_cases hB : s ≥ 60 <;>
      simp [overall_status, readinessTierLabel, classificationTier, hA, hB]
  · intro s
    by_cases hA : s ≥ 80 <;> by_cases hB : s ≥ 60 <;>
      simp [section_status, sectionTierLabel, classificationTier, hA, hB]
  · rw [h80, h799]; decide
  · rw [h60, h599]; decide

/-! ### C6: score bounds -/

lemma riskCredit_nonneg {w : ℚ} (hw : 0 ≤ w) (r : RiskResponse) : 0 ≤ riskCredit w r := by
  cases r <;> simp [riskCredit] <;> linarith

lemma riskCredit_le_weight {w : ℚ} (hw : 0 ≤ w) (r : RiskResponse) :
    riskCredit w r ≤ riskWeightOf w r := by
  cases r <;> simp [riskCredit, riskWeightOf] <;> linarith

lemma checkCredit_nonneg {w : ℚ} (hw : 0 ≤ w) (s : CheckStatus) : 0 ≤ checkCredit w s := by
  cases s <;> simp [checkCredit] <;> linarith

lemma checkCredit_le_weight {w : ℚ} (hw : 0 ≤ w) (s : CheckStatus) :
    checkCredit w s ≤ checkWeightOf w s := by
  cases s <;> simp [checkCredit, checkWeightOf] <;> linarith

lemma earnedRisk_nonneg {qs : List (ℚ × RiskResponse)} (hw : ∀ p ∈ qs, 0 ≤ p.1) :
    0 ≤ earnedRisk qs := by
  refine List.sum_nonneg ?_
  intro x hx
  obtain ⟨p, hp, rfl⟩ := List.mem_map.mp hx
  exact riskCredit_nonneg (hw p hp) p.2

lemma earnedRisk_le_totalRisk {qs : List (ℚ × RiskResponse)} (hw : ∀ p ∈ qs, 0 ≤ p.1) :
    earnedRisk qs ≤ totalRisk qs := by
  refine List.sum_le_sum ?_
  intro p hp
  exact riskCredit_le_weight (hw p hp) p.2

lemma earnedCheck_nonneg {qs : List (ℚ × CheckStatus)} (hw : ∀ p ∈ qs, 0 ≤ p.1) :
    0 ≤ earnedCheck qs := by
  refine List.sum_nonneg ?_
  intro x hx
  obtain ⟨p, hp, rfl⟩ := List.mem_map.mp hx
  exact checkCredit_nonneg (hw p hp) p.2

lemma earnedCheck_le_totalCheck {qs : List (ℚ × CheckStatus)} (hw : ∀ p ∈ qs, 0 ≤ p.1) :
    earnedCheck qs ≤ totalCheck qs := by
  refine List.sum_le_sum ?_
  intro p hp
  exact checkCredit_le_weight (hw p hp) p.2

lemma ratio_score_bounds {e t : ℚ} (he : 0 ≤ e) (het : e ≤ t) (ht : 0 < t) :
    0 ≤ e / t * 100 ∧ e / t * 100 ≤ 100 := by
  constructor
  · positivity
  · have h1 : e / t ≤ 1 := (div_le_one ht).mpr het
    nlinarith

/-- C6: on every input whose question weights are nonnegative, the
category score of the risk tool and the section score of the checklist lie
in `[0, 100]`; whenever the total applicable weight is zero the score is
exactly `100`, and the earned credit never exceeds the total applicable
weight. -/
theorem claim_C6_score_bounds (qs : List (ℚ × RiskResponse)) (cs : List (ℚ × CheckStatus))
    (hq : ∀ p ∈ qs, 0 ≤ p.1) (hc : ∀ p ∈ cs, 0 ≤ p.1) :
    (0 ≤ riskCategoryScore qs ∧ riskCategoryScore qs ≤ 100 ∧
      earnedRisk qs ≤ totalRisk qs ∧
      (totalRisk qs = 0 → riskCategoryScore qs = 100)) ∧
    (0 ≤ section_score cs ∧ section_score cs ≤ 100 ∧
      earnedCheck cs ≤ totalCheck cs ∧
      (totalCheck cs = 0 → section_score cs = 100)) := by
  constructor
  · have het := earnedRisk_le_totalRisk hq
    have he := earnedRisk_nonneg hq
    rw [riskCategoryScore_eq]
    by_cases ht : totalRisk qs > 0
    · have hb := ratio_score_bounds he het ht
      refine ⟨by simpa [ht] using hb.1, by simpa [ht] using hb.2, het, ?_⟩
      intro h0
      rw [h0] at ht
      norm_num at ht
    · rw [if_neg ht]
      exact ⟨by norm_num, by norm_num, het, fun _ => rfl⟩
  · have het := earnedCheck_le_totalCheck hc
    have he := earnedCheck_nonneg hc
    rw [section_score_eq]
    by_cases ht : totalCheck cs > 0
    · have hb := ratio_score_bounds he het ht
      refine ⟨by simpa [ht] using hb.1, by simpa [ht] using hb.2, het, ?_⟩
      intro h0
      rw [h0] at ht
      norm_num at ht
    · rw [if_neg ht]
      exact ⟨by norm_num, by norm_num, het, fun _ => rfl⟩

/-- Witness for C6 at a concrete input: one fully implemented question of
weight 3 in the risk tool and one partially compliant item of weight 2 in
the checklist (where all N/A inputs make the zero-weight branch reachable
as well). -/
theorem claim_C6_score_bounds_witness :
    (0 ≤ riskCategoryScore [(3, .fullyImplemented)] ∧
      riskCategoryScore [(3, .fullyImplemented)] ≤ 100 ∧
      earnedRisk [(3, .fullyImplemented)] ≤ totalRisk [(3, .fullyImplemented)] ∧
      (totalRisk [(3, .fullyImplemented)] = 0 →
        riskCategoryScore [(3, .fullyImplemented)] = 100)) ∧
    (0 ≤ section_score [(2, .partiallyCompliant)] ∧
      section_score [(2, .partiallyCompliant)] ≤ 100 ∧
      earnedCheck [(2, .partiallyCompliant)] ≤ totalCheck [(2, .partiallyCompliant)] ∧
      (totalCheck [(2, .partiallyCompliant)] = 0 →
        section_score [(2, .partiallyCompliant)] = 100)) :=
  claim_C6_score_bounds [(3, .fullyImplemented)] [(2, .partiallyCompliant)]
    (by
      intro p hp
      simp only [List.mem_singleton] at hp
      subst hp
      norm_num)
    (by
      intro p hp
      simp only [List.mem_singleton] at hp
      subst hp
      norm_num)

/-! ### C7: monotonicity under single-answer upgrades -/

lemma riskScore_mono_at (w : ℚ) (r₁ r₂ : RiskResponse)
    (l₁ l₂ : List (ℚ × RiskResponse))
    (hcred : riskCredit w r₁ ≤ riskCredit w r₂)
    (hwt : riskWeightOf w r₁ = riskWeightOf w r₂) :
    riskCategoryScore (l₁ ++ (w, r₁) :: l₂) ≤ riskCategoryScore (l₁ ++ (w, r₂) :: l₂) := by
  rw [riskCategoryScore_eq, riskCategoryScore_eq, earnedRisk_append, totalRisk_append,
    earnedRisk_cons, totalRisk_cons, earnedRisk_append, totalRisk_append, earnedRisk_cons,
    totalRisk_cons, hwt]
  set t := totalRisk l₁ + (riskWeightOf w r₂ + totalRisk l₂) with hT
  by_cases ht : t > 0
  · rw [if_pos ht, if_pos ht]
    have h1 : earnedRisk l₁ + (riskCredit (w, r₁).1 (w, r₁).2 + earnedRisk l₂)
        ≤ earnedRisk l₁ + (riskCredit (w, r₂).1 (w, r₂).2 + earnedRisk l₂) := by
      simpa using by linarith
    exact mul_le_mul_of_nonneg_right ((div_le_div_iff_of_pos_right ht).mpr h1) (by norm_num)
  · rw [if_neg ht, if_neg ht]

lemma checkScore_mono_at (w : ℚ) (s₁ s₂ : CheckStatus)
    (l₁ l₂ : List (ℚ × CheckStatus))
    (hcred : checkCredit w s₁ ≤ checkCredit w s₂)
    (hwt : checkWeightOf w s₁ = checkWeightOf w s₂) :
    section_score (l₁ ++ (w, s₁) :: l₂) ≤ section_score (l₁ ++ (w, s₂) :: l₂) := by
  rw [section_score_eq, section_score_eq, earnedCheck_append, totalCheck_append,
    earnedCheck_cons, totalCheck_cons, earnedCheck_append, totalCheck_append, earnedCheck_cons,
    totalCheck_cons, hwt]
  set t := totalCheck l₁ + (checkWeightOf w s₂ + totalCheck l₂) with hT
  by_cases ht : t > 0
  · rw [if_pos ht, if_pos ht]
    have h1 : earnedCheck l₁ + (checkCredit (w, s₁).1 (w, s₁).2 + earnedCheck l₂)
        ≤ earnedCheck l₁ + (checkCredit (w, s₂).1 (w, s₂).2 + earnedCheck l₂) := by
      simpa using by linarith
    exact mul_le_mul_of_nonneg_right ((div_le_div_iff_of_pos_right ht).mpr h1) (by norm_num)
  · rw [if_neg ht, if_neg ht]

/-- C7: upgrading one answer from Not-Addressed to Partial, or Partial to
Fully-Implemented (risk tool), or from Non-Compliant to Partial, or
Partial to Compliant (checklist), with every other answer fixed, never
decreases the category/section score, provided the upgraded question's
weight is nonnegative. -/
theorem claim_C7_single_upgrade_monotone (w : ℚ) (hw : 0 ≤ w)
    (l₁ l₂ : List (ℚ × RiskResponse)) (m₁ m₂ : List (ℚ × CheckStatus)) :
    riskCategoryScore (l₁ ++ (w, .notAddressed) :: l₂)
      ≤ riskCategoryScore (l₁ ++ (w, .inProgress) :: l₂) ∧
    riskCategoryScore (l₁ ++ (w, .inProgress) :: l₂)
      ≤ riskCategoryScore (l₁ ++ (w, .fullyImplemented) :: l₂) ∧
    section_score (m₁ ++ (w, .nonCompliant) :: m₂)
      ≤ section_score (m₁ ++ (w, .partiallyCompliant) :: m₂) ∧
    section_score (m₁ ++ (w, .partiallyCompliant) :: m₂)
      ≤ section_score (m₁ ++ (w, .compliant) :: m₂) := by
  refine ⟨?_, ?_, ?_, ?_⟩
  · exact riskScore_mono_at w _ _ l₁ l₂ (by simp [riskCredit]; linarith)
      (by simp [riskWeightOf])
  · exact riskScore_mono_at w _ _ l₁ l₂ (by simp [riskCredit]; linarith)
      (by simp [riskWeightOf])
  · exact checkScore_mono_at w _ _ m₁ m₂ (by simp [checkCredit]; linarith)
      (by simp [checkWeightOf])
  · exact checkScore_mono_at w _ _ m₁ m₂ (by simp [checkCredit]; linarith)
      (by simp [checkWeightOf])

/-- Witness for C7 at weight 2 with one neighbouring answer on each
side. -/
theorem claim_C7_single_upgrade_monotone_witness :
    riskCategoryScore ([(3, .fullyImplemented)] ++ (2, .notAddressed) :: [])
      ≤ riskCategoryScore ([(3, .fullyImplemented)] ++ (2, .inProgress) :: []) ∧
    riskCategoryScore ([(3, .fullyImplemented)] ++ (2, .inProgress) :: [])
      ≤ riskCategoryScore ([(3, .fullyImplemented)] ++ (2, .fullyImplemented) :: []) ∧
    section_score ([(3, .compliant)] ++ (2, .nonCompliant) :: [])
      ≤ section_score ([(3, .compliant)] ++ (2, .partiallyCompliant) :: []) ∧
    section_score ([(3, .compliant)] ++ (2, .partiallyCompliant) :: [])
      ≤ section_score ([(3, .compliant)] ++ (2, .compliant) :: []) :=
  claim_C7_single_upgrade_monotone 2 (by norm_num) [(3, .fullyImplemented)] []
    [(3, .compliant)] []

/-! ### C1: behaviour of the overall-score computations on empty input -/

/-- Modelled from the spec: `score_overall` is required to fail with an
`InvalidInput` error when called with zero category results, rather than
returning a number.  The source contains no such guard (both overall-score
sites fall back to `0`); this definition exists only so the required
behaviour can be compared with the source's. -/
def score_overall_spec (rs : List (ℚ × ℚ)) : Except String ℚ :=
  if rs.isEmpty then Except.error "InvalidInput"
  else Except.ok (overall_score_risk rs)

/-- C1 counterexample: with an empty set of category results, the risk
tool's overall score and the checklist's overall score both silently
evaluate to `0` — the `InvalidInput` failure that the claim requires (as
captured by `score_overall_spec`) does not happen in the source. -/
theorem claim_C1_counterexample :
    overall_score_risk [] = 0 ∧
    overall_score_checklist [] = 0 ∧
    score_overall_spec [] = Except.error "InvalidInput" ∧
    Except.ok (overall_score_risk []) ≠ score_overall_spec [] := by
  refine ⟨?_, ?_, rfl, ?_⟩
  · simp [overall_score_risk]
  · simp [overall_score_checklist]
  · intro h
    rw [show score_overall_spec [] = Except.error "InvalidInput" from rfl] at h
    exact Except.noConfusion h

/-- C1 (amended): whenever the total category weight is not positive — in
particular on an empty set of category results — the risk tool's overall
score silently evaluates to `0`, and the checklist's overall score
silently evaluates to `0` on an empty section list; neither computation
signals an error. -/
theorem claim_C1_empty_overall_returns_zero :
    (∀ rs : List (ℚ × ℚ), ¬ (0 < (rs.map fun s => s.2).sum) → overall_score_risk rs = 0) ∧
    (∀ ss : List ℚ, ss.isEmpty = true → overall_score_checklist ss = 0) := by
  constructor
  · intro rs h
    simp only [overall_score_risk, gt_iff_lt, if_neg h]
  · intro ss h
    simp only [overall_score_checklist, h, if_true]

/-- Witness for the amended C1 at the empty inputs. -/
theorem claim_C1_empty_overall_returns_zero_witness :
    overall_score_risk [] = 0 ∧ overall_score_checklist [] = 0 :=
  ⟨claim_C1_empty_overall_returns_zero.1 [] (by simp),
   claim_C1_empty_overall_returns_zero.2 [] rfl⟩

/-! ### C5: answers missing from the mapping -/

/-- C5 counterexample: a risk-tool category with one weight-3 question
whose answer is missing scores `100`, because the radio widget's default
is the first option "Yes - Fully Implemented" — not `0`, which is what
Not-Assessed treatment (zero credit, full weight, as exhibited by the
Not-Addressed status) would give. -/
theorem claim_C5_counterexample :
    riskCategoryScoreOpt [(3, none)] = 100 ∧
    riskCategoryScore [(3, RiskResponse.notAddressed)] = 0 ∧
    riskCategoryScoreOpt [(3, none)]
      ≠ riskCategoryScore [(3, RiskResponse.notAddressed)] := by
  have h1 : riskCategoryScoreOpt [(3, none)] = 100 := by
    rw [riskCategoryScoreOpt, show ([((3 : ℚ), (none : Option RiskResponse))].map
        fun q => (q.1, resolveRiskAnswer q.2)) = [(3, RiskResponse.fullyImplemented)] from rfl,
      riskCategoryScore_eq]
    norm_num [totalRisk, earnedRisk, riskCredit, riskWeightOf]
  have h2 : riskCategoryScore [(3, RiskResponse.notAddressed)] = 0 := by
    rw [riskCategoryScore_eq]
    norm_num [totalRisk, earnedRisk, riskCredit, riskWeightOf]
  refine ⟨h1, h2, ?_⟩
  rw [h1, h2]
  norm_num

/-- C5 (amended): a missing answer defaults to the widget's first option.
In the checklist that option is "Not Assessed", which indeed contributes
zero credit but full weight, so a missing checklist entry scores like an
explicit Not-Assessed; in the risk tool the first option is
"Yes - Fully Implemented", so a missing risk answer contributes full
credit and full weight instead. -/
theorem claim_C5_missing_answer_defaults :
    (∀ (w : ℚ) (l₁ l₂ : List (ℚ × Option CheckStatus)),
        section_score_opt (l₁ ++ (w, none) :: l₂)
          = section_score_opt (l₁ ++ (w, some .notAssessed) :: l₂)) ∧
    (∀ w : ℚ, checkCredit w .notAssessed = 0 ∧ checkWeightOf w .notAssessed = w) ∧
    (∀ (w : ℚ) (l₁ l₂ : List (ℚ × Option RiskResponse)),
        riskCategoryScoreOpt (l₁ ++ (w, none) :: l₂)
          = riskCategoryScoreOpt (l₁ ++ (w, some .fullyImplemented) :: l₂)) ∧
    (∀ w : ℚ, riskCredit w .fullyImplemented = w ∧ riskWeightOf w .fullyImplemented = w) := by
  refine ⟨?_, ?_, ?_, ?_⟩
  · intro w l₁ l₂
    simp [section_score_opt, resolveCheckStatus]
  · intro w
    exact ⟨rfl, rfl⟩
  · intro w l₁ l₂
    simp [riskCategoryScoreOpt, resolveRiskAnswer]
  · intro w
    exact ⟨rfl, rfl⟩

/-! ### C8: the critical-issue count is a separate scalar -/

lemma sectionScoreOfItems_nc_na (p : Priority) (l₁ l₂ : List ChecklistItem) :
    sectionScoreOfItems (l₁ ++ ⟨p, .nonCompliant⟩ :: l₂)
      = sectionScoreOfItems (l₁ ++ ⟨p, .notAssessed⟩ :: l₂) := by
  unfold sectionScoreOfItems
  rw [List.map_append, List.map_cons, List.map_append, List.map_cons,
    section_score_eq, section_score_eq, earnedCheck_append, totalCheck_append,
    earnedCheck_cons, totalCheck_cons, earnedCheck_append, totalCheck_append,
    earnedCheck_cons, totalCheck_cons]
  norm_num [checkCredit, checkWeightOf]

/-- C8: `critical_issues` counts exactly the items whose priority is
Critical and whose status is Non-Compliant (a Partial, Not-Assessed or N/A
status on a critical item is not counted); and it is a separate scalar
from the overall score — switching any single item between Non-Compliant
and Not-Assessed changes the count by one when the item is critical while
leaving every section score, and hence the overall score, unchanged. -/
theorem claim_C8_critical_issue_count :
    (∀ results : List (List ChecklistItem),
        critical_issues results = (results.map fun sec =>
          sec.countP fun it => decide (it.priority = Priority.critical ∧
            it.status = CheckStatus.nonCompliant)).sum) ∧
    (∀ (pre post : List (List ChecklistItem)) (p : Priority)
        (l₁ l₂ : List ChecklistItem),
        overallOfResults (pre ++ (l₁ ++ ⟨p, .nonCompliant⟩ :: l₂) :: post)
          = overallOfResults (pre ++ (l₁ ++ ⟨p, .notAssessed⟩ :: l₂) :: post)) ∧
    (∀ (pre post : List (List ChecklistItem)) (l₁ l₂ : List ChecklistItem),
        critical_issues (pre ++ (l₁ ++ ⟨Priority.critical, .nonCompliant⟩ :: l₂) :: post)
          = critical_issues
              (pre ++ (l₁ ++ ⟨Priority.critical, .notAssessed⟩ :: l₂) :: post) + 1) := by
  refine ⟨?_, ?_, ?_⟩
  · intro results
    have hpred : ∀ it : ChecklistItem,
        (it.priority == Priority.critical && it.status == CheckStatus.nonCompliant)
          = decide (it.priority = Priority.critical ∧
              it.status = CheckStatus.nonCompliant) := by
      rintro ⟨p, s⟩
      cases p <;> cases s <;> rfl
    unfold critical_issues
    congr 1
    refine List.map_congr_left ?_
    intro sec _
    exact List.countP_congr fun it _ => by rw [hpred it]
  · intro pre post p l₁ l₂
    unfold overallOfResults
    rw [List.map_append, List.map_cons, List.map_append, List.map_cons,
      sectionScoreOfItems_nc_na]
  · intro pre post l₁ l₂
    unfold critical_issues
    simp only [List.map_append, List.map_cons, List.countP_append, List.countP_cons,
      List.sum_append, List.sum_cons]
    have hc1 : ((Priority.critical == Priority.critical)
        && (CheckStatus.nonCompliant == CheckStatus.nonCompliant)) = true := by decide
    have hc2 : ((Priority.critical == Priority.critical)
        && (CheckStatus.notAssessed == CheckStatus.nonCompliant)) = false := by decide
    simp [hc1, hc2]
    omega

/-! ### Session state and the comprehensive report (C9, C10) -/

/-- A JSON-like value, the shape of the machine-readable report payload. -/
inductive JValue where
  | null
  | str (s : String)
  | num (q : ℚ)
  | bool (b : Bool)
  | arr (xs : List JValue)
  | obj (fields : List (String × JValue))

/-- The dictionary stored by "Generate Risk Analysis"
(`app.py` lines 1128-1136). -/
structure RiskRecord where
  timestamp : String
  use_case : String
  jurisdictions : List String
  overall_score : ℚ
  risk_level : String
  category_scores : List (String × ℚ)
  responses : List (String × List (String × String))

/-- The dictionary appended by "Generate Assessment Report"
(`app.py` lines 1924-1931).  Item-level results are kept per section. -/
structure AssessmentRecord where
  timestamp : String
  system_name : String
  assessor : String
  overall_score : ℚ
  section_scores : List (String × ℚ)
  results : List (String × List ChecklistItem)

/-- The dictionary stored by "Generate Governance Framework"
(`app.py` lines 1589-1602); only the parts read back by the report
renderer (key roles and policy statuses, `app.py` lines 2797-2805) are
modelled. -/
structure GovRecord where
  ai_officer : String
  ai_risk_owner : String
  policies : List (String × String)

/-- The per-session state (`app.py` lines 179-184): `risk_assessment` and
`governance_plan` start out as empty dicts — modelled as `none` — and
`completed_assessments` as an empty list. -/
structure SessionState where
  risk_assessment : Option RiskRecord
  governance_plan : Option GovRecord
  completed_assessments : List AssessmentRecord

/-- The initial session state (`app.py` lines 179-184). -/
def initialSession : SessionState :=
  { risk_assessment := none, governance_plan := none, completed_assessments := [] }

/-- JSON encoding of the `risk_assessment` session field: the empty dict
when no risk analysis has been generated. -/
def encodeRisk : Option RiskRecord → JValue
  | none => .obj []
  | some r => .obj
      [("timestamp", .str r.timestamp),
       ("use_case", .str r.use_case),
       ("jurisdictions", .arr (r.jurisdictions.map .str)),
       ("overall_score", .num r.overall_score),
       ("risk_level", .str r.risk_level),
       ("category_scores", .obj (r.category_scores.map fun c => (c.1, .num c.2))),
       ("responses", .obj (r.responses.map fun c =>
         (c.1, .obj (c.2.map fun q => (q.1, .str q.2)))))]

/-- JSON encoding of one checklist status, by its selectbox label. -/
def statusLabel : CheckStatus → String
  | .notAssessed => "Not Assessed"
  | .compliant => "Compliant"
  | .partiallyCompliant => "Partial"
  | .nonCompliant => "Non-Compliant"
  | .notApplicable => "N/A"

/-- JSON encoding of one priority label. -/
def priorityLabel : Priority → String
  | .critical => "Critical"
  | .high => "High"
  | .medium => "Medium"
  | .low => "Low"

/-- JSON encoding of one completed ethical assessment. -/
def encodeAssessment (a : AssessmentRecord) : JValue :=
  .obj
    [("timestamp", .str a.timestamp),
     ("system_name", .str a.system_name),
     ("assessor", .str a.assessor),
     ("overall_score", .num a.overall_score),
     ("section_scores", .obj (a.section_scores.map fun s => (s.1, .num s.2))),
     ("results", .obj (a.results.map fun s =>
       (s.1, .obj (s.2.map fun it =>
         (priorityLabel it.priority, .str (statusLabel it.status))))))]

/-- JSON encoding of the `governance_plan` session field: the empty dict
when no framework has been generated. -/
def encodeGov : Option GovRecord → JValue
  | none => .obj []
  | some g => .obj
      [("structure", .obj [("ai_officer", .str g.ai_officer),
                           ("ai_risk_owner", .str g.ai_risk_owner)]),
       ("policies", .obj (g.policies.map fun p => (p.1, .str p.2)))]

/-- The machine-readable comprehensive report payload
(`app.py` lines 2736-2744): four fixed top-level keys whose values are the
session fields as they stand, serialized directly. -/
def report_data (generated_at : String) (s : SessionState) : List (String × JValue) :=
  [("report_metadata", .obj [("generated_at", .str generated_at),
                             ("tool_version", .str "1.0.0")]),
   ("risk_assessment", encodeRisk s.risk_assessment),
   ("governance_framework", encodeGov s.governance_plan),
   ("ethical_assessments", .arr (s.completed_assessments.map encodeAssessment))]

/-- The paragraph/heading text of the DOCX comprehensive report
(`app.py` lines 2756-2831), in document order.  Interpolated numeric
fragments are elided; the fixed heading, label and
section-not-yet-completed strings are the source's. -/
def docxReport (s : SessionState) : List String :=
  ["FinTech AI Ethics & Governance Report",
   "Tool Version: 1.0.0",
   "1. Executive Summary",
   "2. Risk Assessment"] ++
  (match s.risk_assessment with
   | some r =>
       ["Use Case: " ++ r.use_case,
        "Risk Level: " ++ r.risk_level,
        "Category Scores:"] ++ r.category_scores.map fun c => c.1
   | none => ["Risk assessment not yet completed."]) ++
  ["3. Governance Framework"] ++
  (match s.governance_plan with
   | some g =>
       ["Key Roles",
        "AI Officer: " ++ g.ai_officer,
        "Risk Owner: " ++ g.ai_risk_owner,
        "Policy Status"] ++ g.policies.map fun p => p.1 ++ ": " ++ p.2
   | none => ["Governance framework not yet generated."]) ++
  ["4. Ethical Assessments"] ++
  (if s.completed_assessments.isEmpty then ["No ethical assessments completed."]
   else s.completed_assessments.map fun a => "Assessment: " ++ a.system_name)

/-- Modelled from the spec: the explicit "not completed" marker that the
aggregator is required to substitute for each absent section of the
payload (never a silently dropped or null/empty value).  The source's
JSON payload does not produce it; only the DOCX renderer emits
not-yet-completed language. -/
def notCompletedMarker : JValue := .str "not completed"

/-- C9 counterexample: with all three inputs absent, the JSON payload maps
`risk_assessment` and `governance_framework` to the *empty object* — the
serialized initial empty session dicts — not to an explicit "not
completed" marker as the claim requires of every absent section. -/
theorem claim_C9_counterexample :
    (report_data "" initialSession).lookup "risk_assessment" = some (JValue.obj []) ∧
    (report_data "" initialSession).lookup "governance_framework"
      = some (JValue.obj []) ∧
    JValue.obj [] ≠ notCompletedMarker := by
  refine ⟨rfl, rfl, fun h => JValue.noConfusion h⟩

/-- C9 (amended): building the comprehensive report with all three inputs
empty/absent is total and keeps all four top-level keys, but absent
sections are carried as empty collections (empty objects for the risk and
governance sections, an empty array for the assessments), not as explicit
"not completed" markers; the explicit not-yet-completed language appears
only in the DOCX rendering of the report. -/
theorem claim_C9_empty_report_shape (t : String) :
    (report_data t initialSession).map Prod.fst
      = ["report_metadata", "risk_assessment", "governance_framework",
         "ethical_assessments"] ∧
    (report_data t initialSession).lookup "risk_assessment" = some (JValue.obj []) ∧
    (report_data t initialSession).lookup "governance_framework"
      = some (JValue.obj []) ∧
    (report_data t initialSession).lookup "ethical_assessments"
      = some (JValue.arr []) ∧
    "Risk assessment not yet completed." ∈ docxReport initialSession ∧
    "Governance framework not yet generated." ∈ docxReport initialSession ∧
    "No ethical assessments completed." ∈ docxReport initialSession := by
  refine ⟨rfl, rfl, rfl, rfl, ?_, ?_, ?_⟩ <;> simp [docxReport, initialSession]

/-! ### C10: last-write-wins risk slot, append-only assessment list -/

/-- The three session-state-mutating button actions of the source:
generating a risk analysis (`app.py` line 1128, assignment), generating a
governance framework (`app.py` line 1602, assignment), and generating an
assessment report (`app.py` line 1924, append). -/
inductive SessionEvent where
  | generateRiskAnalysis (r : RiskRecord)
  | generateGovernanceFramework (g : GovRecord)
  | generateAssessmentReport (a : AssessmentRecord)

/-- Session-state transition: assignments overwrite the single slot,
completing an assessment appends to the list. -/
def sessionStep (s : SessionState) : SessionEvent → SessionState
  | .generateRiskAnalysis r => { s with risk_assessment := some r }
  | .generateGovernanceFramework g => { s with governance_plan := some g }
  | .generateAssessmentReport a =>
      { s with completed_assessments := s.completed_assessments ++ [a] }

/-- A session run: fold the transition over a sequence of events. -/
def runSession (s : SessionState) (evs : List SessionEvent) : SessionState :=
  evs.foldl sessionStep s

/-- The risk record written by an event, if any. -/
def riskWriteOf : SessionEvent → Option RiskRecord
  | .generateRiskAnalysis r => some r
  | _ => none

/-- The assessment record appended by an event, if any. -/
def assessmentOf : SessionEvent → Option AssessmentRecord
  | .generateAssessmentReport a => some a
  | _ => none

lemma sessionStep_risk_of_non_write (s : SessionState) (e : SessionEvent)
    (h : riskWriteOf e = none) :
    (sessionStep s e).risk_assessment = s.risk_assessment := by
  cases e with
  | generateRiskAnalysis r => exact absurd h (by simp [riskWriteOf])
  | generateGovernanceFramework g => rfl
  | generateAssessmentReport a => rfl

lemma runSession_completed (evs : List SessionEvent) (s : SessionState) :
    (runSession s evs).completed_assessments
      = s.completed_assessments ++ evs.filterMap assessmentOf := by
  induction evs generalizing s with
  | nil => simp [runSession]
  | cons e evs ih =>
      rw [runSession, List.foldl_cons, show List.foldl sessionStep (sessionStep s e) evs
        = runSession (sessionStep s e) evs from rfl, ih]
      cases e with
      | generateRiskAnalysis r => simp [sessionStep, assessmentOf]
      | generateGovernanceFramework g => simp [sessionStep, assessmentOf]
      | generateAssessmentReport a => simp [sessionStep, assessmentOf]

lemma runSession_risk_of_no_write (evs : List SessionEvent) (s : SessionState)
    (h : evs.filterMap riskWriteOf = []) :
    (runSession s evs).risk_assessment = s.risk_assessment := by
  induction evs generalizing s with
  | nil => rfl
  | cons e evs ih =>
      rw [List.filterMap_cons] at h
      cases he : riskWriteOf e with
      | some r => rw [he] at h; exact absurd h (by simp)
      | none =>
          rw [he] at h
          rw [runSession, List.foldl_cons,
            show List.foldl sessionStep (sessionStep s e) evs
              = runSession (sessionStep s e) evs from rfl,
            ih (sessionStep s e) h, sessionStep_risk_of_non_write s e he]

lemma runSession_risk_last_write (evs : List SessionEvent) (s : SessionState)
    (rs : List RiskRecord) (r : RiskRecord)
    (h : evs.filterMap riskWriteOf = rs ++ [r]) :
    (runSession s evs).risk_assessment = some r := by
  induction evs generalizing s rs with
  | nil => simp at h
  | cons e evs ih =>
      rw [List.filterMap_cons] at h
      rw [runSession, List.foldl_cons, show List.foldl sessionStep (sessionStep s e) evs
        = runSession (sessionStep s e) evs from rfl]
      cases he : riskWriteOf e with
      | none =>
          rw [he] at h
          exact ih (sessionStep s e) rs h
      | some r₀ =>
          rw [he] at h
          cases rs with
          | nil =>
              simp only [List.nil_append] at h
              obtain ⟨h1, h2⟩ := List.cons.inj h
              subst h1
              rw [runSession_risk_of_no_write evs _ h2]
              cases e with
              | generateRiskAnalysis r₁ =>
                  simp only [riskWriteOf, Option.some.injEq] at he
                  subst he
                  rfl
              | generateGovernanceFramework g => exact absurd he (by simp [riskWriteOf])
              | generateAssessmentReport a => exact absurd he (by simp [riskWriteOf])
          | cons r₁ rs =>
              rw [List.cons_append] at h
              obtain ⟨h1, h2⟩ := List.cons.inj h
              exact ih (sessionStep s e) rs h2

/-- C10: over any sequence of session events, generating a risk analysis
overwrites the single risk-assessment slot (so the slot holds the last
risk write, or its prior value if there was none), while every generated
assessment report appends one record to the completed-assessments list,
which grows in completion order; the comprehensive report's
`ethical_assessments` key serializes exactly that list, in order, and the
`risk_assessment` key serializes the single slot. -/
theorem claim_C10_session_accumulation (evs : List SessionEvent) (s : SessionState)
    (t : String) :
    ((runSession s evs).completed_assessments
      = s.completed_assessments ++ evs.filterMap assessmentOf) ∧
    (evs.filterMap riskWriteOf = [] →
      (runSession s evs).risk_assessment = s.risk_assessment) ∧
    (∀ (rs : List RiskRecord) (r : RiskRecord),
      evs.filterMap riskWriteOf = rs ++ [r] →
      (runSession s evs).risk_assessment = some r) ∧
    ((report_data t (runSession s evs)).lookup "ethical_assessments"
      = some (JValue.arr
          ((s.completed_assessments ++ evs.filterMap assessmentOf).map
            encodeAssessment))) ∧
    ((report_data t (runSession s evs)).lookup "risk_assessment"
      = some (encodeRisk (runSession s evs).risk_assessment)) := by
  refine ⟨runSession_completed evs s, runSession_risk_of_no_write evs s,
    fun rs r h => runSession_risk_last_write evs s rs r h, ?_, rfl⟩
  rw [show (report_data t (runSession s evs)).lookup "ethical_assessments"
    = some (JValue.arr ((runSession s evs).completed_assessments.map encodeAssessment))
    from rfl, runSession_completed evs s]

/-- A concrete risk analysis result used by the C10 witness. -/
def sampleRiskA : RiskRecord :=
  { timestamp := "2025-01-01T10:00:00", use_case := "Credit Scoring/Underwriting",
    jurisdictions := ["European Union"], overall_score := 55, risk_level := "High",
    category_scores := [("Regulatory Compliance", 55)], responses := [] }

/-- A second risk analysis result, overwriting the first in the C10
witness. -/
def sampleRiskB : RiskRecord :=
  { timestamp := "2025-01-01T11:00:00", use_case := "Credit Scoring/Underwriting",
    jurisdictions := ["European Union"], overall_score := 85, risk_level := "Low",
    category_scores := [("Regulatory Compliance", 85)], responses := [] }

/-- A concrete completed ethical assessment used by the C10 witness. -/
def sampleAssessment : AssessmentRecord :=
  { timestamp := "2025-01-01T10:30:00", system_name := "Credit Model",
    assessor := "Analyst", overall_score := 75,
    section_scores := [("1. Fairness & Non-Discrimination", 75)],
    results := [("1. Fairness & Non-Discrimination",
      [{ priority := .critical, status := .compliant }])] }

/-- Witness for C10: a run consisting of a risk analysis, one completed
assessment, then a second risk analysis, starting from the initial
session: the risk slot holds the second analysis and the assessment list
holds exactly the one appended record. -/
theorem claim_C10_session_accumulation_witness :
    (runSession initialSession
        [SessionEvent.generateRiskAnalysis sampleRiskA,
         SessionEvent.generateAssessmentReport sampleAssessment,
         SessionEvent.generateRiskAnalysis sampleRiskB]).completed_assessments
      = [sampleAssessment] ∧
    (runSession initialSession
        [SessionEvent.generateRiskAnalysis sampleRiskA,
         SessionEvent.generateAssessmentReport sampleAssessment,
         SessionEvent.generateRiskAnalysis sampleRiskB]).risk_assessment
      = some sampleRiskB :=
  ⟨(claim_C10_session_accumulation
      [SessionEvent.generateRiskAnalysis sampleRiskA,
       SessionEvent.generateAssessmentReport sampleAssessment,
       SessionEvent.generateRiskAnalysis sampleRiskB] initialSession "").1,
   (claim_C10_session_accumulation
      [SessionEvent.generateRiskAnalysis sampleRiskA,
       SessionEvent.generateAssessmentReport sampleAssessment,
       SessionEvent.generateRiskAnalysis sampleRiskB] initialSession "").2.2.1
     [sampleRiskA] sampleRiskB rfl⟩
